import Mathlib

/-!
# Shallow embedding of the Simple Bedrock Connector Lambda handler

This file embeds `src/lambda/handler.py` of the simple-bedrock-connector
repository into Lean and proves the specified properties of the request
translation pipeline: token validation, model resolution, message
translation, response translation, and the handler state machine.

Conventions of the embedding:
* Python dicts that carry request/response data become structures whose
  fields are `Option`-valued when the corresponding key may be absent
  (`none` = key absent; `Option.getD` mirrors `dict.get(k, default)`).
* External library calls (the secret store client, `json.loads`,
  `datetime.fromisoformat`, the Bedrock client, `uuid`, `time`) are fields
  of an `Env` record, so theorems quantify over every possible behaviour
  of the collaborators.  Timestamps are abstracted as integers ordered the
  way `datetime` comparison orders the parsed values.
* A Python function that may raise an exception which its caller does not
  catch returns a `PyResult`; exceptions the code catches (`ClientError`)
  are encoded in the collaborator result types instead.
* Fixed response headers (Content-Type, CORS) and log statements carry no
  claim-relevant data and are elided from the `HttpResp` model.
-/

namespace SBC

/-- Python `s.startswith(p)`, on the sequence of code points. -/
def py_startswith (s p : String) : Bool := p.data.isPrefixOf s.data

/-- Python `c in s` for a single-character needle `c`: substring
containment of a one-character string is exactly membership of the
character in the code-point sequence. -/
def py_contains_char (s : String) (c : Char) : Bool := s.data.contains c

/-- Python exceptions that can escape `validate_token` (its `try` block
catches only `ClientError`). -/
inductive PyEx where
  | jsonDecodeError
  | keyError
  | valueError
deriving DecidableEq

/-- Outcome of calling a Python function: a normal return value or a
raised, uncaught exception. -/
inductive PyResult (α : Type) where
  | raised (e : PyEx)
  | returned (a : α)
deriving DecidableEq

/-- Outcome of `secrets_client.get_secret_value(SecretId=...)`:
`clientError` covers both a lookup miss (ResourceNotFoundException) and an
unavailable store, both of which surface as `botocore` `ClientError`;
`found` carries the stored `SecretString`. -/
inductive GetSecretResult where
  | clientError
  | found (secretString : String)
deriving DecidableEq

/-- The JSON object stored as the secret value, as read by
`validate_token`: each field is `none` when the key is absent.  (Non-string
JSON values for these keys are outside the model; the code compares the
`token` field for equality and passes `expires_at` to the timestamp
parser.) -/
structure SecretRec where
  token : Option String
  identity : Option String
  created_at : Option String
  expires_at : Option String
deriving DecidableEq

/-- The identity dict returned by `validate_token` on success
(handler.py lines 69-73). -/
structure Identity where
  identity : String
  created_at : String
  expires_at : String
deriving DecidableEq

/-- One element of the request's `messages` list:
`role` and `content` keys, each possibly absent. -/
structure InMsg where
  role : Option String
  content : Option String
deriving DecidableEq

/-- One Bedrock Converse message built by `invoke_bedrock`:
`role` is "user" or "assistant" and the content is the single text block
`[ { "text": text } ]` the code always wraps the content in. -/
structure Turn where
  role : String
  text : String
deriving DecidableEq

/-- The `params` dict handed to `invoke_bedrock`; keys possibly absent
(`invoke_bedrock` applies defaults itself via `params.get`). -/
structure Params where
  max_tokens : Option Int
  temperature : Option Rat
  top_p : Option Rat

/-- The `inferenceConfig` dict of the outgoing Converse call. -/
structure InfConfig where
  maxTokens : Int
  temperature : Rat
  topP : Rat

/-- The keyword arguments of `bedrock_client.converse(**kwargs)`:
`system = none` means the `system` key is ABSENT from the call
(handler.py lines 111-112 add it only when `system_prompts` is
non-empty). -/
structure ConverseReq where
  modelId : String
  messages : List Turn
  inferenceConfig : InfConfig
  system : Option (List String)

/-- One content block of the Bedrock response message. -/
structure ContentBlock where
  text : Option String
deriving DecidableEq

/-- The `output.message` object of a Bedrock Converse response. -/
structure BMessage where
  content : Option (List ContentBlock)
deriving DecidableEq

/-- The `output` object of a Bedrock Converse response. -/
structure BOutput where
  message : Option BMessage
deriving DecidableEq

/-- The `usage` object of a Bedrock Converse response.  `totalTokens` is
present in real responses but never read by the translator; it is kept in
the model to state that fact. -/
structure BUsage where
  inputTokens : Option Int
  outputTokens : Option Int
  totalTokens : Option Int
deriving DecidableEq

/-- A Bedrock Converse response, with every level possibly absent, as read
by `to_openai_response` via chained `.get`. -/
structure BedrockResp where
  output : Option BOutput
  stopReason : Option String
  usage : Option BUsage
deriving DecidableEq

/-- Outcome of `bedrock_client.converse`: a `ClientError` carrying
`e.response["Error"]["Code"]`, or a response. -/
inductive ConverseResult where
  | clientError (code : String)
  | success (r : BedrockResp)
deriving DecidableEq

/-- The `usage` object of the OpenAI-format response. -/
structure Usage where
  prompt_tokens : Int
  completion_tokens : Int
  total_tokens : Int
deriving DecidableEq

/-- The `message` object inside a choice. -/
structure ChoiceMsg where
  role : String
  content : String
deriving DecidableEq

/-- One element of `choices`. -/
structure Choice where
  index : Nat
  message : ChoiceMsg
  finish_reason : String
deriving DecidableEq

/-- The OpenAI chat-completion response dict built by
`to_openai_response`. -/
structure OpenAIResp where
  id : String
  object : String
  created : Int
  model : String
  choices : List Choice
  usage : Usage
deriving DecidableEq

/-- The JSON body of an API Gateway response: either the error envelope
`{error: {message, type}}` or a completion response. -/
inductive RespBody where
  | err (message errType : String)
  | completion (r : OpenAIResp)
deriving DecidableEq

/-- An API Gateway response as built by `response(status_code, body)`;
the two fixed headers it always attaches are elided. -/
structure HttpResp where
  statusCode : Nat
  body : RespBody
deriving DecidableEq

/-- The parsed request body (`json.loads` of the event body): each field
`none` when the key is absent. -/
structure ReqBody where
  model : Option String
  messages : Option (List InMsg)
  max_tokens : Option Int
  temperature : Option Rat
  top_p : Option Rat

/-- An API Gateway proxy event, restricted to the keys the handler reads:
`headers` (a string-keyed dict, modelled as an association list) and
`body` (a raw string), each possibly absent. -/
structure Event where
  headers : Option (List (String × String))
  body : Option String

/-- Python `dict.get(k)` on a headers dict. -/
def hget (h : List (String × String)) (k : String) : Option String :=
  List.lookup k h

/-- The external collaborators and ambient state of one invocation:
the secret store, the JSON parser, the timestamp parser, the clock, the
Bedrock client, and the id generator.  Quantifying theorems over `Env`
quantifies over every behaviour of the collaborators. -/
structure Env where
  get_secret_value : String → GetSecretResult
  json_loads_secret : String → Option SecretRec
  fromisoformat : String → Option Int
  now : Int
  json_loads_body : String → Option ReqBody
  converse : ConverseReq → ConverseResult
  uuid_hex : String
  unix_time : Int

/-- `validate_token` (handler.py lines 52-75).  The `try` block catches
only `ClientError`; `json.loads` failure, missing keys, and an unparseable
`expires_at` raise out of the function.  Key derivation is the fixed
prefix `"sbc/tokens/"` plus the first 12 characters of the token. -/
def validate_token (env : Env) (token : String) : PyResult (Option Identity) :=
  let secret_name := "sbc/tokens/" ++ token.take 12
  match env.get_secret_value secret_name with
  | .clientError => .returned none
  | .found s =>
    match env.json_loads_secret s with
    | none => .raised .jsonDecodeError
    | some secret =>
      if secret.token ≠ some token then .returned none
      else
        match secret.expires_at with
        | none => .raised .keyError
        | some es =>
          match env.fromisoformat es with
          | none => .raised .valueError
          | some expires_at =>
            if env.now > expires_at then .returned none
            else
              match secret.identity, secret.created_at with
              | some idv, some cav => .returned (some ⟨idv, cav, es⟩)
              | _, _ => .raised .keyError

/-- `MODEL_MAP` (handler.py lines 32-47), in source order. -/
def MODEL_MAP : List (String × String) := [
  ("claude-4-opus", "anthropic.claude-4-opus-20250514-v1:0"),
  ("claude-4-sonnet", "anthropic.claude-4-sonnet-20250514-v1:0"),
  ("claude-3.5-sonnet", "anthropic.claude-3-5-sonnet-20241022-v2:0"),
  ("claude-3.5-haiku", "anthropic.claude-3-5-haiku-20241022-v1:0"),
  ("llama-3.3-70b", "meta.llama3-3-70b-instruct-v1:0"),
  ("llama-3.1-405b", "meta.llama3-1-405b-instruct-v1:0"),
  ("mistral-large", "mistral.mistral-large-2407-v1:0"),
  ("gpt-4", "anthropic.claude-4-sonnet-20250514-v1:0"),
  ("gpt-4o", "anthropic.claude-4-sonnet-20250514-v1:0"),
  ("gpt-3.5-turbo", "anthropic.claude-3-5-haiku-20241022-v1:0")]

/-- `DEFAULT_MODEL` (handler.py line 49). -/
def DEFAULT_MODEL : String := "anthropic.claude-4-sonnet-20250514-v1:0"

/-- `resolve_model` (handler.py lines 78-80):
`MODEL_MAP.get(name, name if "." in name else DEFAULT_MODEL)`. -/
def resolve_model (model_name : String) : String :=
  match List.lookup model_name MODEL_MAP with
  | some v => v
  | none => if py_contains_char model_name '.' then model_name else DEFAULT_MODEL

/-- `msg.get("role", "user")` (handler.py line 90). -/
def roleOf (m : InMsg) : String := m.role.getD "user"

/-- `msg.get("content", "")` (handler.py line 91). -/
def contentOf (m : InMsg) : String := m.content.getD ""

/-- The message-translation loop of `invoke_bedrock` (handler.py lines
89-100): returns `(system_prompts, bedrock_messages)`.  Each system
prompt carries the `text` of the appended text dict. -/
def translate_messages : List InMsg → List String × List Turn
  | [] => ([], [])
  | msg :: rest =>
    let tl := translate_messages rest
    if roleOf msg = "system" then (contentOf msg :: tl.1, tl.2)
    else (tl.1, ⟨if roleOf msg = "user" then "user" else "assistant", contentOf msg⟩ :: tl.2)

/-- The `kwargs` dict `invoke_bedrock` builds (handler.py lines 102-112):
defaults applied via `params.get`, and the `system` key added only when
`system_prompts` is non-empty. -/
def build_converse_request (model_id : String) (messages : List InMsg)
    (params : Params) : ConverseReq :=
  let tl := translate_messages messages
  { modelId := model_id
    messages := tl.2
    inferenceConfig :=
      { maxTokens := params.max_tokens.getD 4096
        temperature := params.temperature.getD (7 / 10)
        topP := params.top_p.getD 1 }
    system := if tl.1.isEmpty then none else some tl.1 }

/-- `invoke_bedrock` (handler.py lines 83-115): builds the kwargs and
calls the Bedrock client. -/
def invoke_bedrock (env : Env) (model_id : String) (messages : List InMsg)
    (params : Params) : ConverseResult :=
  env.converse (build_converse_request model_id messages params)

/-- `_map_stop_reason` (handler.py lines 152-160). -/
def map_stop_reason (reason : String) : String :=
  (List.lookup reason [("end_turn", "stop"), ("max_tokens", "length"),
    ("stop_sequence", "stop"), ("content_filtered", "content_filter")]).getD "stop"

/-- `output.get("message", {}).get("content", [])` of a Bedrock response
(handler.py lines 120-122). -/
def blocksOf (r : BedrockResp) : List ContentBlock :=
  ((r.output.getD ⟨none⟩).message.getD ⟨none⟩).content.getD []

/-- `to_openai_response` (handler.py lines 118-149).  `env.uuid_hex` is
the fresh `uuid.uuid4().hex[:29]` and `env.unix_time` the value of
`int(time.time())` at build time. -/
def to_openai_response (env : Env) (bedrock_response : BedrockResp)
    (model_name : String) : OpenAIResp :=
  let text := String.join ((blocksOf bedrock_response).map (fun b => b.text.getD ""))
  let usage := bedrock_response.usage.getD ⟨none, none, none⟩
  { id := "chatcmpl-" ++ env.uuid_hex
    object := "chat.completion"
    created := env.unix_time
    model := model_name
    choices := [{ index := 0
                  message := { role := "assistant", content := text }
                  finish_reason :=
                    map_stop_reason (bedrock_response.stopReason.getD "end_turn") }]
    usage := { prompt_tokens := usage.inputTokens.getD 0
               completion_tokens := usage.outputTokens.getD 0
               total_tokens := usage.inputTokens.getD 0 + usage.outputTokens.getD 0 } }

/-- The `content` of the first choice of an OpenAI-format response
(`r["choices"][0]["message"]["content"]`), used to state properties of
the translated content. -/
def firstContent (r : OpenAIResp) : Option String :=
  r.choices.head?.map (fun c => c.message.content)

/-- `response` (handler.py lines 163-172), fixed headers elided. -/
def response (status_code : Nat) (body : RespBody) : HttpResp :=
  ⟨status_code, body⟩

/-- The auth-header extraction of the handler (handler.py lines 178-179):
`headers.get("authorization", headers.get("Authorization", ""))` on
`event.get("headers", {})`. -/
def auth_header_of (event : Event) : String :=
  let headers := event.headers.getD []
  (hget headers "authorization").getD ((hget headers "Authorization").getD "")

/-- `handler` (handler.py lines 175-240).  The default body is the
literal two-character string consisting of an opening and a closing curly
brace, i.e. `event.get("body", "\x7b\x7d")`. -/
def handler (env : Env) (event : Event) : PyResult HttpResp :=
  let auth_header := auth_header_of event
  if py_startswith auth_header "Bearer " = false then
    .returned (response 401 (.err "Missing or invalid Authorization header" "auth_error"))
  else
    let token := auth_header.drop 7
    match validate_token env token with
    | .raised e => .raised e
    | .returned none =>
      .returned (response 403 (.err "Invalid or expired token" "auth_error"))
    | .returned (some _identity) =>
      match env.json_loads_body (event.body.getD "\x7b\x7d") with
      | none => .returned (response 400 (.err "Invalid JSON body" "invalid_request_error"))
      | some body =>
        let model_name := body.model.getD "gpt-4o"
        let messages := body.messages.getD []
        if messages.isEmpty then
          .returned (response 400 (.err "messages is required" "invalid_request_error"))
        else
          let model_id := resolve_model model_name
          match invoke_bedrock env model_id messages
              ⟨some (body.max_tokens.getD 4096), some (body.temperature.getD (7 / 10)),
               some (body.top_p.getD 1)⟩ with
          | .clientError error_code =>
            .returned (response 502 (.err ("Bedrock error: " ++ error_code) "api_error"))
          | .success bedrock_response =>
            .returned (response 200
              (.completion (to_openai_response env bedrock_response model_name)))

/-! ## Helper lemmas (shared by several claim theorems) -/

theorem join_append_str (l m : List String) :
    String.join (l ++ m) = String.join l ++ String.join m := by
  apply String.ext
  simp [String.data_join]

theorem join_cons_str (a : String) (l : List String) :
    String.join (a :: l) = a ++ String.join l := by
  apply String.ext
  simp [String.data_join]

theorem translate_fst (msgs : List InMsg) :
    (translate_messages msgs).1
      = (msgs.filter (fun m => roleOf m == "system")).map contentOf := by
  induction msgs with
  | nil => rfl
  | cons m rest ih =>
    by_cases h : roleOf m = "system" <;>
      simp [translate_messages, h, List.filter_cons, ih]

theorem translate_snd (msgs : List InMsg) :
    (translate_messages msgs).2
      = (msgs.filter (fun m => roleOf m != "system")).map
          (fun m => ⟨if roleOf m = "user" then "user" else "assistant", contentOf m⟩) := by
  induction msgs with
  | nil => rfl
  | cons m rest ih =>
    by_cases h : roleOf m = "system" <;>
      simp [translate_messages, h, List.filter_cons, ih]

/-- A trivial environment for concrete evaluations. -/
def env0 : Env :=
  { get_secret_value := fun _ => .clientError
    json_loads_secret := fun _ => none
    fromisoformat := fun _ => none
    now := 0
    json_loads_body := fun _ => none
    converse := fun _ => .clientError "unavailable"
    uuid_hex := "0123456789abcdef0123456789abc"
    unix_time := 0 }

/-! ## Claim theorems -/

/-- C4: `resolve_model` implements exactly the three-tier policy: an alias
present in `MODEL_MAP` resolves to its table value; a name absent from the
table that contains the provider-namespace separator `.` passes through
unchanged; any other name resolves to the fixed `DEFAULT_MODEL`.  It is a
total Lean function, so it never fails. -/
theorem resolve_model_three_tier (name : String) :
    (∀ v, List.lookup name MODEL_MAP = some v → resolve_model name = v) ∧
    (List.lookup name MODEL_MAP = none → py_contains_char name '.' = true →
      resolve_model name = name) ∧
    (List.lookup name MODEL_MAP = none → py_contains_char name '.' = false →
      resolve_model name = DEFAULT_MODEL) := by
  refine ⟨fun v hv => ?_, fun hn hc => ?_, fun hn hc => ?_⟩ <;>
    simp [resolve_model, *]

/-- Witness for C4 at one name of each tier. -/
theorem resolve_model_three_tier_witness :
    resolve_model "claude-4-opus" = "anthropic.claude-4-opus-20250514-v1:0" ∧
    resolve_model "anthropic.someday-model-v9:0" = "anthropic.someday-model-v9:0" ∧
    resolve_model "totally-unknown" = DEFAULT_MODEL :=
  ⟨(resolve_model_three_tier "claude-4-opus").1 _ (by decide),
   (resolve_model_three_tier "anthropic.someday-model-v9:0").2.1 (by decide) (by decide),
   (resolve_model_three_tier "totally-unknown").2.2 (by decide) (by decide)⟩

/-- C5: message translation extracts each system message's content into
the system-prompt sequence (never as a turn), maps role "user" to a user
turn and every other non-system role (including the defaulted role of a
message with no role key, and unrecognized values) to "user" or
"assistant" turns, never fails, and preserves the relative order of
non-system messages among themselves and of system messages among
themselves: the outputs are exactly the order-preserving filter-maps of
the input. -/
theorem translate_messages_roles_order (msgs : List InMsg) :
    (translate_messages msgs).1
      = (msgs.filter (fun m => roleOf m == "system")).map contentOf ∧
    (translate_messages msgs).2
      = (msgs.filter (fun m => roleOf m != "system")).map
          (fun m => ⟨if roleOf m = "user" then "user" else "assistant", contentOf m⟩) :=
  ⟨translate_fst msgs, translate_snd msgs⟩

/-- C8: the outgoing Converse call omits the `system` key exactly when the
message list contains no system-role message, and any system message (even
one with empty content) makes the key present, carrying the translated
system prompts. -/
theorem system_param_omitted_iff (model_id : String) (messages : List InMsg)
    (params : Params) :
    ((build_converse_request model_id messages params).system = none ↔
      ∀ m ∈ messages, roleOf m ≠ "system") ∧
    ((∃ m ∈ messages, roleOf m = "system") →
      (build_converse_request model_id messages params).system
        = some (translate_messages messages).1) := by
  have hsys : (build_converse_request model_id messages params).system
      = if (translate_messages messages).1.isEmpty then none
        else some (translate_messages messages).1 := rfl
  have hkey : (translate_messages messages).1.isEmpty = true ↔
      ∀ m ∈ messages, roleOf m ≠ "system" := by
    rw [translate_fst]
    simp [List.isEmpty_iff, List.filter_eq_nil_iff]
  constructor
  · rw [hsys]
    by_cases he : (translate_messages messages).1.isEmpty = true
    · rw [if_pos he]
      exact ⟨fun _ => hkey.mp he, fun _ => rfl⟩
    · rw [if_neg he]
      constructor
      · intro h; exact absurd h (by simp)
      · intro hforall; exact absurd (hkey.mpr hforall) he
  · rintro ⟨m, hm, hrole⟩
    have hne : ¬(translate_messages messages).1.isEmpty = true :=
      fun he => (hkey.mp he) m hm hrole
    rw [hsys, if_neg hne]

/-- Witness for C8: no system message omits the key; a system message with
empty content makes it present. -/
theorem system_param_omitted_iff_witness :
    (build_converse_request "m" [⟨some "user", some "hi"⟩] ⟨none, none, none⟩).system
        = none ∧
    (build_converse_request "m" [⟨some "system", some ""⟩, ⟨some "user", some "hi"⟩]
        ⟨none, none, none⟩).system = some [""] :=
  ⟨(system_param_omitted_iff "m" [⟨some "user", some "hi"⟩] ⟨none, none, none⟩).1.mpr
      (by decide),
   (system_param_omitted_iff "m" [⟨some "system", some ""⟩, ⟨some "user", some "hi"⟩]
      ⟨none, none, none⟩).2 ⟨⟨some "system", some ""⟩, by simp, by decide⟩⟩

/-- C1: `validate(T)` returns an Identity (carrying the record's identity,
created_at and expires_at) exactly when the store holds, under the derived
key (fixed prefix + first 12 characters of T), a record whose `token`
field equals T byte-for-byte and whose parsed `expires_at` satisfies
`now ≤ expires_at` (expiry equal to now is still valid).  A record whose
token merely shares the 12-character key prefix but differs anywhere fails
the `rec.token = some T` condition and is rejected. -/
theorem validate_token_iff_identity (env : Env) (t : String) (i : Identity) :
    validate_token env t = .returned (some i) ↔
      ∃ s rec expv,
        env.get_secret_value ("sbc/tokens/" ++ t.take 12) = .found s ∧
        env.json_loads_secret s = some rec ∧
        rec.token = some t ∧
        rec.identity = some i.identity ∧
        rec.created_at = some i.created_at ∧
        rec.expires_at = some i.expires_at ∧
        env.fromisoformat i.expires_at = some expv ∧
        env.now ≤ expv := by
  constructor
  · intro h
    simp only [validate_token] at h
    rcases hg : env.get_secret_value ("sbc/tokens/" ++ t.take 12) with _ | s <;>
      simp only [hg] at h
    · simp at h
    rcases hj : env.json_loads_secret s with _ | rec <;> simp only [hj] at h
    · simp at h
    by_cases htok : rec.token = some t
    · rw [if_neg (by simp [htok])] at h
      rcases hes : rec.expires_at with _ | es <;> simp only [hes] at h
      · simp at h
      rcases hparse : env.fromisoformat es with _ | expv <;> simp only [hparse] at h
      · simp at h
      by_cases hgt : env.now > expv
      · rw [if_pos hgt] at h; simp at h
      rw [if_neg hgt] at h
      rcases hid : rec.identity with _ | idv <;> simp only [hid] at h
      · simp at h
      rcases hca : rec.created_at with _ | cav <;> simp only [hca] at h
      · simp at h
      simp only [PyResult.returned.injEq, Option.some.injEq] at h
      subst h
      exact ⟨s, rec, expv, rfl, hj, htok, hid, hca, hes, hparse, le_of_not_lt hgt⟩
    · rw [if_pos (by simpa using htok)] at h
      simp at h
  · rintro ⟨s, rec, expv, hg, hj, htok, hid, hca, hes, hparse, hle⟩
    simp only [validate_token, hg, hj, htok, hes, hparse, hid, hca]
    rw [if_neg (by simp), if_neg (not_lt.mpr hle)]

/-- Environment for the C1 witness: the store holds a well-formed record
whose expiry equals "now" exactly (the boundary the claim calls still
valid). -/
def envC1 : Env :=
  { env0 with
    get_secret_value := fun _ => .found "rec-json"
    json_loads_secret := fun _ =>
      some ⟨some "tokenvalue_abcdef", some "logan-dev",
            some "2025-01-01T00:00:00", some "2025-02-01T00:00:00"⟩
    fromisoformat := fun s => if s = "2025-02-01T00:00:00" then some 90 else none
    now := 90 }

/-- Witness for C1: the stored record matches and `now = expires_at`, so
the identity is returned. -/
theorem validate_token_iff_identity_witness :
    validate_token envC1 "tokenvalue_abcdef"
      = .returned (some ⟨"logan-dev", "2025-01-01T00:00:00", "2025-02-01T00:00:00"⟩) :=
  (validate_token_iff_identity envC1 "tokenvalue_abcdef"
      ⟨"logan-dev", "2025-01-01T00:00:00", "2025-02-01T00:00:00"⟩).mpr
    ⟨"rec-json",
     ⟨some "tokenvalue_abcdef", some "logan-dev",
      some "2025-01-01T00:00:00", some "2025-02-01T00:00:00"⟩, 90,
     rfl, rfl, rfl, rfl, rfl, rfl, by decide, by decide⟩

/-- Environment exhibiting the C2 divergence: the stored secret value is
not valid JSON. -/
def envC2 : Env := { env0 with get_secret_value := fun _ => .found "oops not json" }

/-- C2 (divergence): the spec says `validate` fails closed (returns
Rejected, never an uncaught error) on a malformed stored record, but the
`try` block of `validate_token` catches only `ClientError`, so when
`json.loads` of the stored value fails the exception propagates out of
the function instead of producing a rejection.  (Lookup miss and store
unavailable, which surface as `ClientError`, do return Rejected.) -/
theorem validate_token_raises_on_malformed_record :
    validate_token envC2 "tok_abcdefgh" = .raised .jsonDecodeError := rfl

/-- C6: the response `content` is the separator-free, in-order
concatenation of every text fragment of the backend result's content
blocks, the empty block sequence yields the empty string (never an
error), and the translation is associative over concatenation: splitting
one fragment into two adjacent fragments with the same combined text
leaves `content` identical. -/
theorem response_content_concat_assoc (env : Env) (model : String) :
    (∀ br : BedrockResp,
      firstContent (to_openai_response env br model)
        = some (String.join ((blocksOf br).map (fun bb => bb.text.getD "")))) ∧
    (∀ br : BedrockResp, blocksOf br = [] →
      firstContent (to_openai_response env br model) = some "") ∧
    (∀ br br' : BedrockResp, ∀ pre post b b₁ b₂,
      blocksOf br = pre ++ b :: post →
      blocksOf br' = pre ++ b₁ :: b₂ :: post →
      b₁.text.getD "" ++ b₂.text.getD "" = b.text.getD "" →
      firstContent (to_openai_response env br' model)
        = firstContent (to_openai_response env br model)) := by
  have hfc : ∀ br : BedrockResp,
      firstContent (to_openai_response env br model)
        = some (String.join ((blocksOf br).map (fun bb => bb.text.getD ""))) :=
    fun _ => rfl
  refine ⟨hfc, fun br hb => ?_, fun br br' pre post b b₁ b₂ h h' hsplit => ?_⟩
  · rw [hfc br, hb]; rfl
  · rw [hfc br, hfc br', h, h']
    simp only [List.map_append, List.map_cons, join_append_str, join_cons_str]
    rw [← hsplit, String.append_assoc]

/-- Witness for C6: splitting the fragment "Hi there" into "Hi " and
"there" leaves the content identical. -/
theorem response_content_concat_assoc_witness :
    firstContent (to_openai_response env0
        ⟨some ⟨some ⟨some [⟨some "Hi "⟩, ⟨some "there"⟩]⟩⟩, none, none⟩ "m")
      = firstContent (to_openai_response env0
        ⟨some ⟨some ⟨some [⟨some "Hi there"⟩]⟩⟩, none, none⟩ "m") :=
  (response_content_concat_assoc env0 "m").2.2
    ⟨some ⟨some ⟨some [⟨some "Hi there"⟩]⟩⟩, none, none⟩
    ⟨some ⟨some ⟨some [⟨some "Hi "⟩, ⟨some "there"⟩]⟩⟩, none, none⟩
    [] [] ⟨some "Hi there"⟩ ⟨some "Hi "⟩ ⟨some "there"⟩
    rfl rfl (by decide)

/-- C7: every translated response satisfies
`total_tokens = prompt_tokens + completion_tokens`; absent backend usage
(or absent usage fields) defaults everything to 0; and `total_tokens` is
computed from the two parts, never copied: changing the upstream
`totalTokens` field does not change the translated response at all. -/
theorem usage_total_invariant (env : Env) (model : String) :
    (∀ br : BedrockResp,
      (to_openai_response env br model).usage.total_tokens
        = (to_openai_response env br model).usage.prompt_tokens
          + (to_openai_response env br model).usage.completion_tokens) ∧
    (∀ br : BedrockResp, br.usage = none →
      (to_openai_response env br model).usage = ⟨0, 0, 0⟩) ∧
    (∀ br : BedrockResp, ∀ u, br.usage = some u →
      u.inputTokens = none → u.outputTokens = none →
      (to_openai_response env br model).usage = ⟨0, 0, 0⟩) ∧
    (∀ br : BedrockResp, ∀ u tt, br.usage = some u →
      to_openai_response env { br with usage := some { u with totalTokens := tt } } model
        = to_openai_response env br model) := by
  refine ⟨fun br => rfl, fun br hu => ?_, fun br u hu h1 h2 => ?_,
          fun br u tt hu => ?_⟩
  · simp [to_openai_response, hu]
  · simp [to_openai_response, hu, h1, h2]
  · simp [to_openai_response, blocksOf, hu]

/-- Witness for C7: a backend result with no usage object translates to
all-zero usage, and its total equals the sum of the parts. -/
theorem usage_total_invariant_witness :
    (to_openai_response env0 ⟨none, none, none⟩ "m").usage = ⟨0, 0, 0⟩ :=
  (usage_total_invariant env0 "m").2.1 ⟨none, none, none⟩ rfl

/-- C3: the pipeline runs strictly in order with first-failure
short-circuit.  A missing or non-"Bearer " credential yields the 401
envelope; a rejected credential yields the 403 envelope for EVERY body
parser, backend, id generator and clock (so the body is never parsed and
the backend never invoked); a body that fails to parse yields 400; an
empty message list yields 400; a backend `ClientError` yields the 502
envelope carrying the error code; and whenever the validator returns
(rather than raising) the handler produces exactly one terminal response
envelope. -/
theorem handler_pipeline_order (env : Env) (event : Event) :
    (py_startswith (auth_header_of event) "Bearer " = false →
      handler env event
        = .returned (response 401
            (.err "Missing or invalid Authorization header" "auth_error"))) ∧
    (py_startswith (auth_header_of event) "Bearer " = true →
      validate_token env ((auth_header_of event).drop 7) = .returned none →
      ∀ pb cv u tm,
        handler { env with
            json_loads_body := pb, converse := cv, uuid_hex := u,
            unix_time := tm } event
          = .returned (response 403 (.err "Invalid or expired token" "auth_error"))) ∧
    (py_startswith (auth_header_of event) "Bearer " = true →
      ∀ idn, validate_token env ((auth_header_of event).drop 7) = .returned (some idn) →
      env.json_loads_body (event.body.getD "\x7b\x7d") = none →
      handler env event
        = .returned (response 400 (.err "Invalid JSON body" "invalid_request_error"))) ∧
    (py_startswith (auth_header_of event) "Bearer " = true →
      ∀ idn b, validate_token env ((auth_header_of event).drop 7) = .returned (some idn) →
      env.json_loads_body (event.body.getD "\x7b\x7d") = some b →
      (b.messages.getD []).isEmpty = true →
      handler env event
        = .returned (response 400 (.err "messages is required" "invalid_request_error"))) ∧
    (py_startswith (auth_header_of event) "Bearer " = true →
      ∀ idn b c, validate_token env ((auth_header_of event).drop 7) = .returned (some idn) →
      env.json_loads_body (event.body.getD "\x7b\x7d") = some b →
      (b.messages.getD []).isEmpty = false →
      env.converse (build_converse_request (resolve_model (b.model.getD "gpt-4o"))
          (b.messages.getD [])
          ⟨some (b.max_tokens.getD 4096), some (b.temperature.getD (7 / 10)),
           some (b.top_p.getD 1)⟩) = .clientError c →
      handler env event
        = .returned (response 502 (.err ("Bedrock error: " ++ c) "api_error"))) ∧
    (∀ v, validate_token env ((auth_header_of event).drop 7) = .returned v →
      ∃ r, handler env event = .returned r) := by
  have h401 : py_startswith (auth_header_of event) "Bearer " = false →
      handler env event
        = .returned (response 401
            (.err "Missing or invalid Authorization header" "auth_error")) := by
    intro h
    simp [handler, h]
  have h403 : py_startswith (auth_header_of event) "Bearer " = true →
      validate_token env ((auth_header_of event).drop 7) = .returned none →
      ∀ pb cv u tm,
        handler { env with
            json_loads_body := pb, converse := cv, uuid_hex := u,
            unix_time := tm } event
          = .returned (response 403 (.err "Invalid or expired token" "auth_error")) := by
    intro h hv pb cv u tm
    have hv' : validate_token { env with
        json_loads_body := pb, converse := cv, uuid_hex := u,
        unix_time := tm } ((auth_header_of event).drop 7)
        = .returned none := hv
    simp [handler, h, hv']
  have h400 : py_startswith (auth_header_of event) "Bearer " = true →
      ∀ idn, validate_token env ((auth_header_of event).drop 7) = .returned (some idn) →
      env.json_loads_body (event.body.getD "\x7b\x7d") = none →
      handler env event
        = .returned (response 400 (.err "Invalid JSON body" "invalid_request_error")) := by
    intro h idn hv hb
    simp [handler, h, hv, hb]
  have h400m : py_startswith (auth_header_of event) "Bearer " = true →
      ∀ idn b, validate_token env ((auth_header_of event).drop 7) = .returned (some idn) →
      env.json_loads_body (event.body.getD "\x7b\x7d") = some b →
      (b.messages.getD []).isEmpty = true →
      handler env event
        = .returned (response 400 (.err "messages is required" "invalid_request_error")) := by
    intro h idn b hv hb hm
    simp [handler, h, hv, hb, hm]
  have h502 : py_startswith (auth_header_of event) "Bearer " = true →
      ∀ idn b c, validate_token env ((auth_header_of event).drop 7) = .returned (some idn) →
      env.json_loads_body (event.body.getD "\x7b\x7d") = some b →
      (b.messages.getD []).isEmpty = false →
      env.converse (build_converse_request (resolve_model (b.model.getD "gpt-4o"))
          (b.messages.getD [])
          ⟨some (b.max_tokens.getD 4096), some (b.temperature.getD (7 / 10)),
           some (b.top_p.getD 1)⟩) = .clientError c →
      handler env event
        = .returned (response 502 (.err ("Bedrock error: " ++ c) "api_error")) := by
    intro h idn b c hv hb hm hc
    simp [handler, invoke_bedrock, h, hv, hb, hm, hc]
  refine ⟨h401, h403, h400, h400m, h502, ?_⟩
  intro v hv
  by_cases h : py_startswith (auth_header_of event) "Bearer " = false
  · exact ⟨_, h401 h⟩
  · simp only [Bool.not_eq_false] at h
    cases v with
    | none =>
      exact ⟨_, h403 h hv env.json_loads_body env.converse env.uuid_hex env.unix_time⟩
    | some idn =>
      cases hb : env.json_loads_body (event.body.getD "\x7b\x7d") with
      | none => exact ⟨_, h400 h idn hv hb⟩
      | some b =>
        cases hm : (b.messages.getD []).isEmpty with
        | true => exact ⟨_, h400m h idn b hv hb hm⟩
        | false =>
          cases hc : env.converse (build_converse_request
              (resolve_model (b.model.getD "gpt-4o")) (b.messages.getD [])
              ⟨some (b.max_tokens.getD 4096), some (b.temperature.getD (7 / 10)),
               some (b.top_p.getD 1)⟩) with
          | clientError c => exact ⟨_, h502 h idn b c hv hb hm hc⟩
          | success br =>
            exact ⟨response 200 (.completion (to_openai_response env br
                (b.model.getD "gpt-4o"))),
              by simp [handler, invoke_bedrock, h, hv, hb, hm, hc]⟩

/-- Event for the C3 witness: well-formed Bearer header whose token the
store rejects, and an invalid body that must never matter. -/
def event403 : Event := ⟨some [("Authorization", "Bearer deadbeef")], some "not json"⟩

/-- Witness for C3: a rejected token yields the 403 envelope even though
the body is invalid. -/
theorem handler_pipeline_order_witness :
    handler env0 event403
      = .returned (response 403 (.err "Invalid or expired token" "auth_error")) :=
  (handler_pipeline_order env0 event403).2.1 (by decide) (by decide)
    env0.json_loads_body env0.converse env0.uuid_hex env0.unix_time

/-- Event whose only authorization-carrying header key is all-caps. -/
def event_caps : Event := ⟨some [("AUTHORIZATION", "Bearer sometoken")], none⟩

/-- C9 counterexample: the header lookup is NOT case-insensitive over all
casings.  A Bearer-prefixed credential stored under the all-caps key
"AUTHORIZATION" is not extracted (the extracted header is empty) and the
request is answered with the 401 envelope, contradicting the claim that
every casing of the header name carrying a Bearer value yields the same
extracted token. -/
theorem auth_caps_header_rejected :
    auth_header_of event_caps = "" ∧
    handler env0 event_caps
      = .returned (response 401
          (.err "Missing or invalid Authorization header" "auth_error")) := by
  exact ⟨rfl, by decide⟩

/-- C9 (amended): credential extraction accepts exactly two spellings of
the header key — the all-lowercase "authorization" (looked up first) and
the canonically-cased "Authorization" (fallback) — extracting the same
value from either; the handler depends on the event only through the
extracted header value and the body; and a missing or
non-"Bearer "-prefixed value terminates with the 401 envelope. -/
theorem auth_two_casings_only (event : Event) (tok : String) :
    (∀ hs, event.headers = some hs →
      hget hs "authorization" = some ("Bearer " ++ tok) →
      auth_header_of event = "Bearer " ++ tok) ∧
    (∀ hs, event.headers = some hs →
      hget hs "authorization" = none →
      hget hs "Authorization" = some ("Bearer " ++ tok) →
      auth_header_of event = "Bearer " ++ tok) ∧
    (∀ env e2, auth_header_of event = auth_header_of e2 → event.body = e2.body →
      handler env event = handler env e2) ∧
    (∀ env : Env, py_startswith (auth_header_of event) "Bearer " = false →
      handler env event
        = .returned (response 401
            (.err "Missing or invalid Authorization header" "auth_error"))) := by
  refine ⟨fun hs h1 h2 => ?_, fun hs h1 h2 h3 => ?_, fun env e2 h1 h2 => ?_,
          fun env h => ?_⟩
  · simp [auth_header_of, h1, h2]
  · simp [auth_header_of, h1, h2, h3]
  · unfold handler
    rw [h1, h2]
  · simp [handler, h]

/-- Witness for C9 (amended): the same Bearer value is extracted from the
lowercase and from the canonical header key. -/
theorem auth_two_casings_only_witness :
    auth_header_of ⟨some [("authorization", "Bearer tk1")], none⟩ = "Bearer " ++ "tk1" ∧
    auth_header_of ⟨some [("Authorization", "Bearer tk1")], none⟩ = "Bearer " ++ "tk1" :=
  ⟨(auth_two_casings_only ⟨some [("authorization", "Bearer tk1")], none⟩ "tk1").1
      _ rfl (by decide),
   (auth_two_casings_only ⟨some [("Authorization", "Bearer tk1")], none⟩ "tk1").2.1
      _ rfl (by decide) (by decide)⟩

/-- C10: an authenticated request whose parsed body has no "model" key
behaves as if "gpt-4o" had been requested: the backend is invoked with
the fixed default Claude Sonnet identifier (`DEFAULT_MODEL`, which is what
"gpt-4o" resolves to), and on success the response's `model` field echoes
"gpt-4o", not the resolved backend identifier. -/
theorem default_model_gpt4o (env : Env) (event : Event) (idn : Identity) (b : ReqBody) :
    py_startswith (auth_header_of event) "Bearer " = true →
    validate_token env ((auth_header_of event).drop 7) = .returned (some idn) →
    env.json_loads_body (event.body.getD "\x7b\x7d") = some b →
    b.model = none →
    (b.messages.getD []).isEmpty = false →
    (handler env event
      = match env.converse (build_converse_request DEFAULT_MODEL (b.messages.getD [])
          ⟨some (b.max_tokens.getD 4096), some (b.temperature.getD (7 / 10)),
           some (b.top_p.getD 1)⟩) with
        | .clientError c =>
          .returned (response 502 (.err ("Bedrock error: " ++ c) "api_error"))
        | .success br =>
          .returned (response 200 (.completion (to_openai_response env br "gpt-4o")))) ∧
    (∀ br, env.converse (build_converse_request DEFAULT_MODEL (b.messages.getD [])
          ⟨some (b.max_tokens.getD 4096), some (b.temperature.getD (7 / 10)),
           some (b.top_p.getD 1)⟩) = .success br →
      handler env event
        = .returned (response 200 (.completion (to_openai_response env br "gpt-4o"))) ∧
      (to_openai_response env br "gpt-4o").model = "gpt-4o") := by
  intro h hv hb hmodel hm
  have hres : resolve_model "gpt-4o" = DEFAULT_MODEL := by decide
  have main : handler env event
      = match env.converse (build_converse_request DEFAULT_MODEL (b.messages.getD [])
          ⟨some (b.max_tokens.getD 4096), some (b.temperature.getD (7 / 10)),
           some (b.top_p.getD 1)⟩) with
        | .clientError c =>
          .returned (response 502 (.err ("Bedrock error: " ++ c) "api_error"))
        | .success br =>
          .returned (response 200 (.completion (to_openai_response env br "gpt-4o"))) := by
    cases hc : env.converse (build_converse_request DEFAULT_MODEL (b.messages.getD [])
        ⟨some (b.max_tokens.getD 4096), some (b.temperature.getD (7 / 10)),
         some (b.top_p.getD 1)⟩) with
    | clientError c => simp [handler, invoke_bedrock, h, hv, hb, hm, hmodel, hres, hc]
    | success br => simp [handler, invoke_bedrock, h, hv, hb, hm, hmodel, hres, hc]
  refine ⟨main, fun br hcv => ⟨?_, rfl⟩⟩
  rw [main, hcv]

/-- Backend result used by the C10 witness. -/
def brW : BedrockResp :=
  ⟨some ⟨some ⟨some [⟨some "Hello"⟩]⟩⟩, some "end_turn", some ⟨some 5, some 3, some 8⟩⟩

/-- Parsed request body used by the C10 witness: no "model" key. -/
def bodyW : ReqBody := ⟨none, some [⟨some "user", some "hi"⟩], none, none, none⟩

/-- Environment for the C10 witness: valid stored token, body that parses
to `bodyW`, backend that answers `brW`. -/
def envC10 : Env :=
  { envC1 with json_loads_body := fun _ => some bodyW, converse := fun _ => .success brW }

/-- Event for the C10 witness. -/
def eventC10 : Event :=
  ⟨some [("Authorization", "Bearer tokenvalue_abcdef")], some "ignored"⟩

/-- Witness for C10: the handler answers 200 with `model = "gpt-4o"`. -/
theorem default_model_gpt4o_witness :
    handler envC10 eventC10
      = .returned (response 200 (.completion (to_openai_response envC10 brW "gpt-4o"))) ∧
    (to_openai_response envC10 brW "gpt-4o").model = "gpt-4o" :=
  (default_model_gpt4o envC10 eventC10
      ⟨"logan-dev", "2025-01-01T00:00:00", "2025-02-01T00:00:00"⟩ bodyW
      (by decide) (by decide) rfl rfl rfl).2 brW rfl

end SBC
